import Mathlib

/-!
Shallow embedding of the voice-input session controller of
`src/app/(tabs)/index.tsx` (the `HomeScreen` component): the session state
record, the native-backend event handlers (`onSpeechStart`, `onSpeechRecognized`,
`onSpeechEnd`, `onSpeechError`, `onSpeechResults`, `onSpeechPartialResults`,
`onSpeechVolumeChanged`), the browser-backend handlers installed on the
`webkitSpeechRecognition` object (`onstart`, `onresult`, `onend`, `onerror`),
and the controller entry points `startListening` / `stopListening`.

State updates in the source go through `setVoiceState` / `setRecognizedText`;
here each handler is a pure function on the combined state, additionally
returning the side effects it issues (pulse-animation handles, alerts, console
error logs) and, for the browser `onresult` handler, the logical events it
emits. Console tracing of raw event payloads (`console.log` at the top of each
handler) carries no state and is not modelled.
-/

/-- The `VoiceState` interface of the source. The source field `end` is a Lean
keyword and is rendered `end_` here. -/
structure VoiceState where
  recognized : String
  pitch : String
  error : String
  end_ : String
  started : Bool
  results : List String
  partialResults : List String
deriving Repr, DecidableEq

/-- Combined component state: the `voiceState` record together with the
`recognizedText` display transcript (a separate `useState` in the source). -/
structure AppState where
  voiceState : VoiceState
  recognizedText : String
deriving Repr, DecidableEq

/-- The initial value passed to `useState<VoiceState>` in the source. -/
def initialVoiceState : VoiceState :=
  { recognized := ""
    pitch := ""
    error := ""
    end_ := ""
    started := false
    results := []
    partialResults := [] }

/-- Initial combined state: initial `VoiceState` and empty `recognizedText`. -/
def initialAppState : AppState :=
  { voiceState := initialVoiceState, recognizedText := "" }

/-- Side effects issued by handlers: pulse-animation control, user-facing
alerts (`Alert.alert(title, message)`), and console error logs. -/
inductive Effect where
  | startPulse
  | stopPulse
  | alert (title : String) (message : String)
  | log (message : String)
deriving Repr, DecidableEq

/-- The `onSpeechStart` callback: sets `started: true` and starts the pulse
animation. -/
def onSpeechStart (s : AppState) : AppState × List Effect :=
  ({ s with voiceState := { s.voiceState with started := true } },
   [Effect.startPulse])

/-- The `onSpeechRecognized` callback: sets `recognized: '√'`. -/
def onSpeechRecognized (s : AppState) : AppState × List Effect :=
  ({ s with voiceState := { s.voiceState with recognized := "√" } }, [])

/-- The `onSpeechEnd` callback: sets `end: '√'`, `started: false` and stops the
pulse animation. -/
def onSpeechEnd (s : AppState) : AppState × List Effect :=
  ({ s with voiceState := { s.voiceState with end_ := "√", started := false } },
   [Effect.stopPulse])

/-- The `onSpeechError` callback: sets `error: JSON.stringify(e.error)` (here
the already-stringified `err`) and `started: false`, stops the pulse animation,
and raises an alert built from `e.error?.message || 'Unknown error'` (here the
optional `msg`). -/
def onSpeechError (err : String) (msg : Option String) (s : AppState) :
    AppState × List Effect :=
  ({ s with voiceState := { s.voiceState with error := err, started := false } },
   [Effect.stopPulse,
    Effect.alert "Speech Recognition Error"
      ("Error: " ++ msg.getD "Unknown error")])

/-- The `onSpeechResults` callback: guarded by `e.value && e.value.length > 0`;
when the guard holds it replaces `results` with `e.value` and publishes
`e.value[0]` via `setRecognizedText`; otherwise the state is untouched. -/
def onSpeechResults (value : Option (List String)) (s : AppState) :
    AppState × List Effect :=
  match value with
  | some v =>
    if v.length > 0 then
      ({ voiceState := { s.voiceState with results := v },
         recognizedText := v.headD "" }, [])
    else (s, [])
  | none => (s, [])

/-- The `onSpeechPartialResults` callback: guarded by `e.value` only (in
JavaScript an empty array is truthy, so an empty list still replaces
`partialResults`). -/
def onSpeechPartialResults (value : Option (List String)) (s : AppState) :
    AppState × List Effect :=
  match value with
  | some v =>
    ({ s with voiceState := { s.voiceState with partialResults := v } }, [])
  | none => (s, [])

/-- The `onSpeechVolumeChanged` callback: sets `pitch: e.value`. -/
def onSpeechVolumeChanged (value : String) (s : AppState) :
    AppState × List Effect :=
  ({ s with voiceState := { s.voiceState with pitch := value } }, [])

/-- One entry of the browser recognition result list: a transcript (the
`results[i][0].transcript` field) and its `isFinal` flag. -/
structure SpeechResultEntry where
  transcript : String
  isFinal : Bool
deriving Repr, DecidableEq

/-- The accumulation loop of the browser `onresult` handler: scans the entries
in order, appending each transcript to `finalTranscript` when `isFinal` and to
`interimTranscript` otherwise. -/
def accumTranscripts : List SpeechResultEntry → String → String → String × String
  | [], fin, inter => (fin, inter)
  | e :: rest, fin, inter =>
    if e.isFinal then accumTranscripts rest (fin ++ e.transcript) inter
    else accumTranscripts rest fin (inter ++ e.transcript)

/-- Logical events the browser adapter emits toward the session state: a
final-results event (the `setRecognizedText` + `results:` update) and a
partial-results event (the `partialResults:` update). -/
inductive LogicalEvent where
  | finalResults (value : List String)
  | partialResults (value : List String)
deriving Repr, DecidableEq

/-- Recogniser for final-results events. -/
def LogicalEvent.isFinalEvent : LogicalEvent → Bool
  | .finalResults _ => true
  | _ => false

/-- Recogniser for partial-results events. -/
def LogicalEvent.isPartialEvent : LogicalEvent → Bool
  | .partialResults _ => true
  | _ => false

/-- The browser `recognition.onresult` handler: accumulates the transcripts of
entries `[resultIndex..n)` into final and interim strings, then (if
`finalTranscript` is a truthy, i.e. non-empty, string) publishes it as
`recognizedText` and replaces `results` with its singleton, and (if
`interimTranscript` is non-empty) replaces `partialResults` with its
singleton. Also returns the logical events so emitted. -/
def browserOnResult (resultIndex : Nat) (results : List SpeechResultEntry)
    (s : AppState) : AppState × List LogicalEvent :=
  let entries := results.drop resultIndex
  let acc := accumTranscripts entries "" ""
  let finalTranscript := acc.1
  let interimTranscript := acc.2
  let step1 : AppState × List LogicalEvent :=
    if finalTranscript ≠ "" then
      ({ voiceState := { s.voiceState with results := [finalTranscript] },
         recognizedText := finalTranscript },
       [LogicalEvent.finalResults [finalTranscript]])
    else (s, [])
  let step2 : AppState × List LogicalEvent :=
    if interimTranscript ≠ "" then
      ({ step1.1 with
          voiceState := { step1.1.voiceState with
                            partialResults := [interimTranscript] } },
       step1.2 ++ [LogicalEvent.partialResults [interimTranscript]])
    else step1
  step2

/-- The browser `recognition.onstart` handler. -/
def browserOnStart (s : AppState) : AppState × List Effect :=
  ({ s with voiceState := { s.voiceState with started := true } },
   [Effect.startPulse])

/-- The browser `recognition.onend` handler: sets `started: false` and stops
the pulse animation (it does not touch the `end` field). -/
def browserOnEnd (s : AppState) : AppState × List Effect :=
  ({ s with voiceState := { s.voiceState with started := false } },
   [Effect.stopPulse])

/-- The browser `recognition.onerror` handler: sets `started: false` and
`error: event.error`, stops the pulse animation, raises an alert. -/
def browserOnError (err : String) (s : AppState) : AppState × List Effect :=
  ({ s with voiceState := { s.voiceState with started := false, error := err } },
   [Effect.stopPulse,
    Effect.alert "Speech Recognition Error" ("Error: " ++ err)])

/-- Native-backend events, one per `Voice.onSpeech*` callback. -/
inductive NativeEvent where
  | speechStart
  | speechRecognized
  | speechEnd
  | speechError (err : String) (msg : Option String)
  | speechResults (value : Option (List String))
  | speechPartialResults (value : Option (List String))
  | speechVolumeChanged (value : String)
deriving Repr, DecidableEq

/-- Browser-backend events, one per handler installed on the recognition
object. -/
inductive BrowserEvent where
  | onstart
  | onresult (resultIndex : Nat) (results : List SpeechResultEntry)
  | onend
  | onerror (err : String)
deriving Repr, DecidableEq

/-- State transition of one native-backend event (effects dropped). -/
def nativeStep (s : AppState) : NativeEvent → AppState
  | .speechStart => (onSpeechStart s).1
  | .speechRecognized => (onSpeechRecognized s).1
  | .speechEnd => (onSpeechEnd s).1
  | .speechError err msg => (onSpeechError err msg s).1
  | .speechResults v => (onSpeechResults v s).1
  | .speechPartialResults v => (onSpeechPartialResults v s).1
  | .speechVolumeChanged v => (onSpeechVolumeChanged v s).1

/-- State transition of one browser-backend event (effects dropped). -/
def browserStep (s : AppState) : BrowserEvent → AppState
  | .onstart => (browserOnStart s).1
  | .onresult i rs => (browserOnResult i rs s).1
  | .onend => (browserOnEnd s).1
  | .onerror e => (browserOnError e s).1

/-- Terminal native events: `onSpeechEnd` and `onSpeechError`. -/
def nativeTerminal : NativeEvent → Bool
  | .speechEnd => true
  | .speechError _ _ => true
  | _ => false

/-- Terminal browser events: `onend` and `onerror`. -/
def browserTerminal : BrowserEvent → Bool
  | .onend => true
  | .onerror _ => true
  | _ => false

/-- Runtime configuration of one controller call: `isWeb` is
`Platform.OS === 'web'`; `webRecognitionAvailable` says whether the
`webRecognition` state is non-null (the web capability probe succeeded);
`adapterStartThrows` says whether the active adapter's start primitive throws
on this call. -/
structure Env where
  isWeb : Bool
  webRecognitionAvailable : Bool
  adapterStartThrows : Bool
deriving Repr, DecidableEq

/-- Adapter primitives invoked by the controller. -/
inductive AdapterCall where
  | webStart
  | nativeStart
  | webStop
  | nativeStop
deriving Repr, DecidableEq

/-- The `VoiceState` literal assigned at the top of `startListening` (same
value as `initialVoiceState`, spelled with the source's field order). -/
def resetVoiceState : VoiceState :=
  { recognized := ""
    pitch := ""
    error := ""
    started := false
    results := []
    partialResults := []
    end_ := "" }

/-- The web-initialization branch of the setup `useEffect`: when
`webkitSpeechRecognition` is present a recognition object is constructed and
stored (`some`), otherwise `webRecognition` stays null and a one-shot
unsupported notice is raised. -/
def initWebRecognition (webkitAvailable : Bool) : Option Unit × List Effect :=
  if webkitAvailable then (some (), [])
  else (none,
    [Effect.alert "Speech Recognition Not Supported"
      "Your browser does not support speech recognition. Please use Chrome or Safari."])

/-- The `startListening` function: resets `voiceState` to the empty baseline
and clears `recognizedText`, then, inside `try`, either calls
`webRecognition.start()` (web, recognition available), raises an availability
alert (web, recognition null), or calls `Voice.start('en-US')` (native); a
throw from the adapter is caught and answered with an alert. Returns the
resulting state, the effects raised, and the adapter primitives invoked. -/
def startListening (env : Env) (_s : AppState) :
    AppState × List Effect × List AdapterCall :=
  let s1 : AppState := { voiceState := resetVoiceState, recognizedText := "" }
  if env.isWeb then
    if env.webRecognitionAvailable then
      if env.adapterStartThrows then
        (s1,
         [Effect.log "Error starting voice recognition",
          Effect.alert "Error"
            "Failed to start voice recognition. Please check microphone permissions."],
         [AdapterCall.webStart])
      else (s1, [], [AdapterCall.webStart])
    else
      (s1, [Effect.alert "Error" "Speech recognition not available"], [])
  else
    if env.adapterStartThrows then
      (s1,
       [Effect.log "Error starting voice recognition",
        Effect.alert "Error"
          "Failed to start voice recognition. Please check microphone permissions."],
       [AdapterCall.nativeStart])
    else (s1, [], [AdapterCall.nativeStart])

/-- The adapter-stop dispatch inside `stopListening`'s `try` block: web calls
`webRecognition.stop()` when the object exists (and silently does nothing when
it is null), native calls `Voice.stop()`; `stopThrows` says whether the invoked
primitive throws. -/
def adapterStopCall (env : Env) (stopThrows : Bool) :
    List AdapterCall × Except String Unit :=
  if env.isWeb then
    if env.webRecognitionAvailable then
      ([AdapterCall.webStop],
       if stopThrows then Except.error "stop failed" else Except.ok ())
    else ([], Except.ok ())
  else
    ([AdapterCall.nativeStop],
     if stopThrows then Except.error "stop failed" else Except.ok ())

/-- The `stopListening` function: invokes the adapter stop primitive inside
`try`; a throw is caught and logged (`console.error`), never re-raised, and the
component state is never written. The outer `Except` is the error channel
toward the caller. -/
def stopListening (env : Env) (stopThrows : Bool) (s : AppState) :
    Except String (AppState × List Effect × List AdapterCall) :=
  let r := adapterStopCall env stopThrows
  match r.2 with
  | Except.ok _ => Except.ok (s, [], r.1)
  | Except.error e =>
    Except.ok (s, [Effect.log ("Error stopping voice recognition: " ++ e)], r.1)

/-- The concatenation, in order, of the transcripts of the final entries of a
result range (the spec's `F`). -/
def finalConcat (entries : List SpeechResultEntry) : String :=
  String.join ((entries.filter fun e => e.isFinal).map fun e => e.transcript)

/-- The concatenation, in order, of the transcripts of the interim entries of
a result range (the spec's `I`). -/
def interimConcat (entries : List SpeechResultEntry) : String :=
  String.join ((entries.filter fun e => !e.isFinal).map fun e => e.transcript)

theorem strJoinCons (a : String) (l : List String) :
    String.join (a :: l) = a ++ String.join l := by
  apply String.ext
  simp

theorem accumTranscripts_eq (entries : List SpeechResultEntry) :
    ∀ fin inter, accumTranscripts entries fin inter =
      (fin ++ finalConcat entries, inter ++ interimConcat entries) := by
  induction entries with
  | nil =>
    intro fin inter
    simp [accumTranscripts, finalConcat, interimConcat, String.join,
      String.append_empty]
  | cons e rest ih =>
    intro fin inter
    by_cases h : e.isFinal <;>
      simp [accumTranscripts, h, ih, finalConcat, interimConcat,
        List.filter_cons, strJoinCons, String.append_assoc]

/-- C1: for every prior state, `startListening` resets `results`,
`partialResults`, `error`, `end` and `recognized` to their empty baselines (and
clears the display transcript) before delegating to the active backend's start
primitive: every branch proceeds from, and returns, the freshly reset state. -/
theorem startListening_resets_session_fields (env : Env) (s : AppState) :
    (startListening env s).1.voiceState.results = [] ∧
    (startListening env s).1.voiceState.partialResults = [] ∧
    (startListening env s).1.voiceState.error = "" ∧
    (startListening env s).1.voiceState.end_ = "" ∧
    (startListening env s).1.voiceState.recognized = "" ∧
    (startListening env s).1 =
      { voiceState := resetVoiceState, recognizedText := "" } := by
  obtain ⟨w, a, t⟩ := env
  cases w <;> cases a <;> cases t <;>
    simp [startListening, resetVoiceState]

/-- C3 counterexample: the browser backend's end handler leaves the `end` field
unset (`""`), so the end event is not folded identically on both backends (the
native handler sets `end` to `"√"`, the browser handler does not set it). -/
theorem browser_end_event_leaves_end_unset :
    (browserStep initialAppState BrowserEvent.onend).voiceState.end_ = "" ∧
    (browserStep initialAppState BrowserEvent.onend).voiceState.end_ ≠ "√" ∧
    (nativeStep initialAppState NativeEvent.speechEnd).voiceState.end_ = "√" := by
  refine ⟨rfl, ?_, rfl⟩
  decide

/-- C3 amended: on an end event both backends set `started = false`; the native
backend additionally sets `end = ENDED` (`"√"`), while the browser backend's
end handler leaves `end` unchanged. -/
theorem end_event_folding_per_backend (s : AppState) :
    (nativeStep s NativeEvent.speechEnd).voiceState.end_ = "√" ∧
    (nativeStep s NativeEvent.speechEnd).voiceState.started = false ∧
    (browserStep s BrowserEvent.onend).voiceState.started = false ∧
    (browserStep s BrowserEvent.onend).voiceState.end_ = s.voiceState.end_ := by
  simp [nativeStep, browserStep, onSpeechEnd, browserOnEnd]

/-- C4 counterexample: a final-results event carrying the empty candidate list
does not replace `results` (the handler's `e.value.length > 0` guard skips the
update), so prior results survive, contradicting the claim that `results` is
replaced even by an empty list. -/
theorem empty_final_results_not_replaced :
    (onSpeechResults (some [])
        { voiceState := { initialVoiceState with results := ["x"] },
          recognizedText := "old" }).1.voiceState.results = ["x"] ∧
    (["x"] : List String) ≠ [] := by
  exact ⟨rfl, by decide⟩

/-- C4 amended: on both backends, a final-results event with a non-empty
candidate list replaces `results` with that list and publishes its first
element as the display transcript — natively for any non-empty `e.value`, on
the browser for the singleton `[finalTranscript]` the `onresult` handler emits
whenever its final concatenation is non-empty; a final-results event with an
empty or absent candidate list leaves the state unchanged (on the browser no
final-results event fires when the final concatenation is empty, and `results`
and the transcript are untouched). -/
theorem final_results_folding (s : AppState) (v : List String) (hv : v ≠ []) :
    (onSpeechResults (some v) s).1.voiceState.results = v ∧
    (onSpeechResults (some v) s).1.recognizedText = v.headD "" ∧
    (onSpeechResults (some []) s).1 = s ∧
    (onSpeechResults none s).1 = s ∧
    (∀ (resultIndex : Nat) (rs : List SpeechResultEntry) (t : AppState),
      (finalConcat (rs.drop resultIndex) ≠ "" →
        (browserOnResult resultIndex rs t).2.filter LogicalEvent.isFinalEvent
          = [LogicalEvent.finalResults [finalConcat (rs.drop resultIndex)]] ∧
        (browserOnResult resultIndex rs t).1.voiceState.results
          = [finalConcat (rs.drop resultIndex)] ∧
        (browserOnResult resultIndex rs t).1.recognizedText
          = [finalConcat (rs.drop resultIndex)].headD "") ∧
      (finalConcat (rs.drop resultIndex) = "" →
        (browserOnResult resultIndex rs t).2.filter LogicalEvent.isFinalEvent
          = [] ∧
        (browserOnResult resultIndex rs t).1.voiceState.results
          = t.voiceState.results ∧
        (browserOnResult resultIndex rs t).1.recognizedText
          = t.recognizedText)) := by
  refine ⟨?_, ?_, rfl, rfl, ?_⟩
  · cases v with
    | nil => exact absurd rfl hv
    | cons a l => simp [onSpeechResults]
  · cases v with
    | nil => exact absurd rfl hv
    | cons a l => simp [onSpeechResults]
  · intro resultIndex rs t
    have hacc := accumTranscripts_eq (rs.drop resultIndex) "" ""
    rw [String.empty_append, String.empty_append] at hacc
    constructor
    · intro hF
      by_cases hI : interimConcat (rs.drop resultIndex) = "" <;>
        simp [browserOnResult, hacc, hF, hI, LogicalEvent.isFinalEvent]
    · intro hF
      by_cases hI : interimConcat (rs.drop resultIndex) = "" <;>
        simp [browserOnResult, hacc, hF, hI, LogicalEvent.isFinalEvent]

/-- C4 witness: the amended theorem applied at a concrete two-candidate native
final-results event and at a concrete browser `onresult` invocation with one
final entry, both from the initial state. -/
theorem final_results_folding_witness :
    (onSpeechResults (some ["hello", "hullo"])
        initialAppState).1.voiceState.results = ["hello", "hullo"] ∧
    (onSpeechResults (some ["hello", "hullo"])
        initialAppState).1.recognizedText = "hello" ∧
    (browserOnResult 0 [⟨"hi", true⟩]
        initialAppState).1.voiceState.results = ["hi"] ∧
    (browserOnResult 0 [⟨"hi", true⟩]
        initialAppState).1.recognizedText = "hi" := by
  have h := final_results_folding initialAppState ["hello", "hullo"] (by decide)
  have hb := (h.2.2.2.2 0 [⟨"hi", true⟩] initialAppState).1 (by decide)
  exact ⟨h.1, h.2.1, hb.2.1, hb.2.2⟩

/-- C10: an error event, on either backend, modifies only the `error` and
`started` fields: `results`, `partialResults`, `recognized`, `pitch`, `end`
and the display transcript all keep their previous values. -/
theorem error_event_frame_condition (s : AppState) (err : String)
    (msg : Option String) (berr : String) :
    ((onSpeechError err msg s).1.voiceState.results = s.voiceState.results ∧
     (onSpeechError err msg s).1.voiceState.partialResults =
       s.voiceState.partialResults ∧
     (onSpeechError err msg s).1.voiceState.recognized =
       s.voiceState.recognized ∧
     (onSpeechError err msg s).1.voiceState.pitch = s.voiceState.pitch ∧
     (onSpeechError err msg s).1.voiceState.end_ = s.voiceState.end_ ∧
     (onSpeechError err msg s).1.recognizedText = s.recognizedText ∧
     (onSpeechError err msg s).1.voiceState.error = err ∧
     (onSpeechError err msg s).1.voiceState.started = false) ∧
    ((browserOnError berr s).1.voiceState.results = s.voiceState.results ∧
     (browserOnError berr s).1.voiceState.partialResults =
       s.voiceState.partialResults ∧
     (browserOnError berr s).1.voiceState.recognized =
       s.voiceState.recognized ∧
     (browserOnError berr s).1.voiceState.pitch = s.voiceState.pitch ∧
     (browserOnError berr s).1.voiceState.end_ = s.voiceState.end_ ∧
     (browserOnError berr s).1.recognizedText = s.recognizedText ∧
     (browserOnError berr s).1.voiceState.error = berr ∧
     (browserOnError berr s).1.voiceState.started = false) := by
  simp [onSpeechError, browserOnError]

/-- C2: for every event sequence folded into the state, immediately after
processing an end or error event — on either the native or the browser
backend — the `started` field is `false`. -/
theorem started_false_after_end_or_error :
    (∀ (s : AppState) (pre : List NativeEvent) (e : NativeEvent),
        nativeTerminal e = true →
        (List.foldl nativeStep s (pre ++ [e])).voiceState.started = false) ∧
    (∀ (s : AppState) (pre : List BrowserEvent) (e : BrowserEvent),
        browserTerminal e = true →
        (List.foldl browserStep s (pre ++ [e])).voiceState.started = false) := by
  constructor
  · intro s pre e he
    rw [List.foldl_append]
    cases e <;> simp_all [nativeTerminal, nativeStep, onSpeechEnd, onSpeechError]
  · intro s pre e he
    rw [List.foldl_append]
    cases e <;> simp_all [browserTerminal, browserStep, browserOnEnd,
      browserOnError]

/-- C2 witness: a start event followed by an end event, on each backend, from
the initial state. -/
theorem started_false_after_end_or_error_witness :
    (List.foldl nativeStep initialAppState
        ([NativeEvent.speechStart] ++ [NativeEvent.speechEnd])).voiceState.started
      = false ∧
    (List.foldl browserStep initialAppState
        ([BrowserEvent.onstart] ++ [BrowserEvent.onend])).voiceState.started
      = false :=
  ⟨started_false_after_end_or_error.1 initialAppState [NativeEvent.speechStart]
      NativeEvent.speechEnd rfl,
   started_false_after_end_or_error.2 initialAppState [BrowserEvent.onstart]
      BrowserEvent.onend rfl⟩

/-- C5: in one browser `onresult` invocation whose newly-available range has
final concatenation `F` and interim concatenation `I`, exactly one
final-results event fires, carrying `[F]`, when `F` is non-empty (none when it
is empty), and exactly one partial-results event fires, carrying `[I]`, when
`I` is non-empty (none when it is empty). -/
theorem browser_onresult_event_emission (resultIndex : Nat)
    (results : List SpeechResultEntry) (s : AppState) :
    (finalConcat (results.drop resultIndex) ≠ "" →
      (browserOnResult resultIndex results s).2.filter LogicalEvent.isFinalEvent
        = [LogicalEvent.finalResults [finalConcat (results.drop resultIndex)]]) ∧
    (finalConcat (results.drop resultIndex) = "" →
      (browserOnResult resultIndex results s).2.filter LogicalEvent.isFinalEvent
        = []) ∧
    (interimConcat (results.drop resultIndex) ≠ "" →
      (browserOnResult resultIndex results s).2.filter LogicalEvent.isPartialEvent
        = [LogicalEvent.partialResults
            [interimConcat (results.drop resultIndex)]]) ∧
    (interimConcat (results.drop resultIndex) = "" →
      (browserOnResult resultIndex results s).2.filter LogicalEvent.isPartialEvent
        = []) := by
  have hacc := accumTranscripts_eq (results.drop resultIndex) "" ""
  rw [String.empty_append, String.empty_append] at hacc
  by_cases hF : finalConcat (results.drop resultIndex) = "" <;>
    by_cases hI : interimConcat (results.drop resultIndex) = "" <;>
      simp [browserOnResult, hacc, hF, hI, LogicalEvent.isFinalEvent,
        LogicalEvent.isPartialEvent]

/-- C5 witness: one invocation with one final entry `"hello"` and one interim
entry `"wor"` emits exactly the final-results event `["hello"]` and the
partial-results event `["wor"]`. -/
theorem browser_onresult_event_emission_witness :
    (browserOnResult 0 [⟨"hello", true⟩, ⟨"wor", false⟩]
        initialAppState).2.filter LogicalEvent.isFinalEvent
      = [LogicalEvent.finalResults ["hello"]] ∧
    (browserOnResult 0 [⟨"hello", true⟩, ⟨"wor", false⟩]
        initialAppState).2.filter LogicalEvent.isPartialEvent
      = [LogicalEvent.partialResults ["wor"]] :=
  ⟨(browser_onresult_event_emission 0 [⟨"hello", true⟩, ⟨"wor", false⟩]
      initialAppState).1 (by decide),
   (browser_onresult_event_emission 0 [⟨"hello", true⟩, ⟨"wor", false⟩]
      initialAppState).2.2.1 (by decide)⟩

/-- C6: when the web capability probe fails (no `webkitSpeechRecognition`),
initialization leaves the recognition handle null and raises the unsupported
notice, and in that disabled configuration every `startListening` call invokes
no adapter start primitive and surfaces the availability alert. -/
theorem disabled_start_fails_unsupported_no_adapter (th : Bool) (s : AppState) :
    (initWebRecognition false).1 = none ∧
    (initWebRecognition false).2 =
      [Effect.alert "Speech Recognition Not Supported"
        "Your browser does not support speech recognition. Please use Chrome or Safari."] ∧
    (startListening ⟨true, false, th⟩ s).2.2 = [] ∧
    Effect.alert "Error" "Speech recognition not available"
      ∈ (startListening ⟨true, false, th⟩ s).2.1 := by
  refine ⟨rfl, rfl, ?_, ?_⟩ <;> simp [startListening]

/-- C7: `stopListening` never raises an error to the caller, for any platform
configuration, any adapter-stop outcome and any state: a throwing adapter stop
primitive is caught (and logged), not propagated. -/
theorem stopListening_never_raises (env : Env) (stopThrows : Bool)
    (s : AppState) :
    ∃ out, stopListening env stopThrows s = Except.ok out := by
  obtain ⟨w, a, t⟩ := env
  cases w <;> cases a <;> cases stopThrows <;> exact ⟨_, rfl⟩

/-- C8: `stopListening` never modifies the session state or the display
transcript: it returns the prior state unchanged in every configuration, so
the reset to the empty baseline happens only inside `startListening`. -/
theorem stopListening_preserves_state (env : Env) (stopThrows : Bool)
    (s : AppState) :
    ∃ effs calls, stopListening env stopThrows s = Except.ok (s, effs, calls) := by
  obtain ⟨w, a, t⟩ := env
  cases w <;> cases a <;> cases stopThrows <;> exact ⟨_, _, rfl⟩

/-- C9: when an adapter is active and its start primitive throws,
`startListening` leaves the state exactly at the reset baseline (no field is
further modified by the failure path) and surfaces the start-failure alert. -/
theorem start_throw_leaves_reset_baseline (env : Env) (s : AppState)
    (hactive : env.isWeb = false ∨ env.webRecognitionAvailable = true)
    (hthrow : env.adapterStartThrows = true) :
    (startListening env s).1.voiceState = resetVoiceState ∧
    (startListening env s).1.recognizedText = "" ∧
    Effect.alert "Error"
        "Failed to start voice recognition. Please check microphone permissions."
      ∈ (startListening env s).2.1 := by
  obtain ⟨w, a, t⟩ := env
  cases w <;> cases a <;> simp_all [startListening]

/-- C9 witness: the native configuration with a throwing adapter start, from
the initial state. -/
theorem start_throw_leaves_reset_baseline_witness :
    (startListening ⟨false, false, true⟩ initialAppState).1.voiceState
      = resetVoiceState ∧
    (startListening ⟨false, false, true⟩ initialAppState).1.recognizedText
      = "" ∧
    Effect.alert "Error"
        "Failed to start voice recognition. Please check microphone permissions."
      ∈ (startListening ⟨false, false, true⟩ initialAppState).2.1 :=
  start_throw_leaves_reset_baseline ⟨false, false, true⟩ initialAppState
    (Or.inl rfl) rfl
